import Mathlib

/-!
Verification of the BreastCancer Flask service (`src/backend/app.py`).

The service wraps a pre-trained scikit-learn scaler and logistic-regression
classifier behind four HTTP endpoints.  We shallowly embed the request
handlers as pure Lean functions over an explicit application state
(the module-level globals `model`, `scaler`, `feature_names`), with the
external library operations (scaler transform, classifier inference,
dataset loading, data splitting, fitting) kept abstract as parameters:
the repository delegates those entirely to scikit-learn.

Probabilities and feature values are embedded as rationals.  The binary
classifier is fitted on labels `{0, 1}`, so its `predict` is embedded with
codomain `Fin 2`.
-/

namespace BreastCancer

/-- A value appearing in the JSON `features` list.  `num` is a numeric
entry; `str` models a non-numeric entry (one that NumPy/sklearn cannot
convert to a float, e.g. `"abc"`). -/
inductive FeatureValue where
  | num (q : ℚ)
  | str (s : String)
deriving Repr, DecidableEq

/-- Conversion of the submitted feature list to a numeric vector, as
performed inside `scaler.transform` on the array built by
`np.array(features)` (app.py line 82 and 85): it fails if any entry is
non-numeric. -/
def toNumeric (fs : List FeatureValue) : Option (List ℚ) :=
  fs.mapM (fun f => match f with
    | .num q => some q
    | .str _ => none)

/-- The parsed JSON body of a POST to `/api/predict`.  The `features`
field is `none` when the key is absent (app.py line 73); when present it
holds the submitted list. -/
structure RequestBody where
  features : Option (List FeatureValue)

/-- The JSON object built at app.py lines 94-102. -/
structure PredictResult where
  prediction : ℤ
  label : String
  confidence : ℚ
  probaMalignant : ℚ
  probaBenign : ℚ
deriving Repr, DecidableEq

/-- The HTTP response of the `/api/predict` handler: 200 with a result,
400 with an error (lines 74 and 79), or 500 with an error (line 107). -/
inductive PredictResponse where
  | ok (result : PredictResult)
  | badRequest (error : String)
  | serverError (error : String)
deriving Repr, DecidableEq

/-- The scikit-learn operations `/api/predict` uses, abstract over the
fitted model type `M` and fitted scaler type `S`.  `modelPredict` has
codomain `Fin 2` because the classifier is fitted on labels `{0, 1}`;
`modelPredictProba` returns the class-0 and class-1 probabilities. -/
structure PredictLib (M S : Type) where
  scalerTransform : S → List ℚ → List ℚ
  modelPredict : M → List ℚ → Fin 2
  modelPredictProba : M → List ℚ → ℚ × ℚ

/-- The module-level globals of app.py (lines 16-18), each `None` until
`load_model` assigns it. -/
structure AppState (M S : Type) where
  model : Option M
  scaler : Option S
  featureNames : Option (List String)
deriving Repr, DecidableEq

/-- The response of one call to the `/api/predict` handler together with
instrumentation recording whether `scaler.transform` (line 85) and the
classifier inference methods (lines 88-89) were entered. -/
structure PredictOutcome where
  response : PredictResponse
  scalerInvoked : Bool
  modelInvoked : Bool
deriving Repr, DecidableEq

/-- Python's `round` to the nearest integer, ties to even. -/
def pyRound (x : ℚ) : ℤ :=
  if x - ⌊x⌋ < 1/2 then ⌊x⌋
  else if (1 : ℚ)/2 < x - ⌊x⌋ then ⌊x⌋ + 1
  else if Even ⌊x⌋ then ⌊x⌋ else ⌊x⌋ + 1

/-- Python's `round(x, 2)`: rounding to two decimal places. -/
def round2 (x : ℚ) : ℚ := (pyRound (x * 100) : ℚ) / 100

/-- The `/api/predict` handler (app.py lines 67-107).  The whole body runs
inside `try`/`except Exception` returning 500 with the exception message
(lines 106-107); the post-validation failure points are the `None` scaler
or model (AttributeError on the attribute access) and non-numeric feature
values (ValueError inside `scaler.transform`).  The handler assigns no
global, so the state is returned unchanged in every branch. -/
def predictEndpoint {M S : Type} (lib : PredictLib M S) (st : AppState M S)
    (body : Option RequestBody) : PredictOutcome × AppState M S :=
  match body with
  | none => (⟨.badRequest "No features provided", false, false⟩, st)
  | some b =>
    match b.features with
    | none => (⟨.badRequest "No features provided", false, false⟩, st)
    | some features =>
      if features.length ≠ 30 then
        (⟨.badRequest ("Expected 30 features, got " ++ toString features.length),
          false, false⟩, st)
      else
        match st.scaler with
        | none =>
          (⟨.serverError "NoneType object has no attribute transform",
            false, false⟩, st)
        | some sc =>
          match toNumeric features with
          | none =>
            (⟨.serverError "could not convert string to float", true, false⟩, st)
          | some nums =>
            let scaled := lib.scalerTransform sc nums
            match st.model with
            | none =>
              (⟨.serverError "NoneType object has no attribute predict",
                true, false⟩, st)
            | some m =>
              let pred := lib.modelPredict m scaled
              let proba := lib.modelPredictProba m scaled
              (⟨.ok { prediction := (pred.val : ℤ),
                      label := if pred.val = 1 then "Benign" else "Malignant",
                      confidence := round2 (max proba.1 proba.2 * 100),
                      probaMalignant := round2 (proba.1 * 100),
                      probaBenign := round2 (proba.2 * 100) },
                true, true⟩, st)

/-- The response of `/api/features` (app.py lines 59-65): the JSON object
with the feature names and their count, or the unhandled `TypeError`
raised by `len(None)` when `feature_names` is still `None`. -/
inductive FeaturesResponse where
  | ok (features : List String) (count : ℕ)
  | typeError
deriving Repr, DecidableEq

/-- The `/api/features` handler (app.py lines 59-65).  It reads the
`feature_names` global and assigns nothing. -/
def getFeaturesEndpoint {M S : Type} (st : AppState M S) :
    FeaturesResponse × AppState M S :=
  match st.featureNames with
  | none => (.typeError, st)
  | some fns => (.ok fns fns.length, st)

/-- The JSON object returned by `/api/model-info` (app.py lines 112-117). -/
structure ModelInfo where
  modelType : String
  featuresCount : ℕ
  classes : List String
  description : String
deriving Repr, DecidableEq

/-- The `/api/model-info` handler (app.py lines 109-117): a constant
response, no global read or written. -/
def modelInfoEndpoint {M S : Type} (st : AppState M S) :
    ModelInfo × AppState M S :=
  ({ modelType := "Logistic Regression",
     featuresCount := 30,
     classes := ["Malignant (0)", "Benign (1)"],
     description :=
       "Breast Cancer Detection Model trained on Wisconsin Breast Cancer Dataset" },
   st)

/-- The JSON object returned by `/api/health` (app.py line 122). -/
structure HealthResponse where
  status : String
  modelLoaded : Bool
deriving Repr, DecidableEq

/-- The `/api/health` handler (app.py lines 119-122).  It reads the
`model` global and assigns nothing. -/
def healthEndpoint {M S : Type} (st : AppState M S) :
    HealthResponse × AppState M S :=
  ({ status := "healthy", modelLoaded := st.model.isSome }, st)

/-- The scikit-learn operations `load_model` uses, abstract over the
fitted model type `M` and fitted scaler type `S`.  `split` embeds
`train_test_split(X, Y, test_size=0.2, random_state=2)` (line 37),
returning `(X_train, X_test, Y_train, Y_test)`; `scalerFit` embeds
`StandardScaler()` followed by fitting, with the scikit-learn identity
`fit_transform X = (fit X).transform X`; `modelFit` embeds
`LogisticRegression().fit`.  The dataset fields embed
`sklearn.datasets.load_breast_cancer()` (lines 25-34): after the
DataFrame round-trip, `X` is the data matrix and `Y` the target column. -/
structure TrainLib (M S : Type) where
  datasetData : List (List ℚ)
  datasetTarget : List ℚ
  datasetFeatureNames : List String
  split : List (List ℚ) → List ℚ →
    List (List ℚ) × List (List ℚ) × List ℚ × List ℚ
  scalerFit : List (List ℚ) → S
  scalerTransform : S → List (List ℚ) → List (List ℚ)
  modelFit : List (List ℚ) → List ℚ → M

/-- An object persisted to disk by `joblib.dump` (app.py lines 49-50). -/
inductive SavedArtifact (M S : Type) where
  | modelFile (m : M)
  | scalerFile (s : S)
deriving DecidableEq

/-- The effect of `load_model` (app.py lines 20-52): the values assigned
to the `model`, `scaler` and `feature_names` globals, and the files
written by `joblib.dump`, as `(filename, object)` pairs. -/
structure LoadModelResult (M S : Type) where
  model : M
  scaler : S
  featureNames : List String
  saved : List (String × SavedArtifact M S)

/-- The trainer `load_model` (app.py lines 20-52): loads the dataset,
splits it, fits the scaler on the training portion (`fit_transform`,
line 41), scales the test portion (line 42, unused downstream), fits the
classifier on the scaled training data (line 46), and dumps the model
and the scaler to `model.pkl` and `scaler.pkl` (lines 49-50). -/
def load_model {M S : Type} (lib : TrainLib M S) : LoadModelResult M S :=
  let featureNames := lib.datasetFeatureNames
  let X := lib.datasetData
  let Y := lib.datasetTarget
  let split := lib.split X Y
  let XTrain := split.1
  let XTest := split.2.1
  let YTrain := split.2.2.1
  let scaler := lib.scalerFit XTrain
  let XTrainScaled := lib.scalerTransform scaler XTrain
  let _XTestScaled := lib.scalerTransform scaler XTest
  let model := lib.modelFit XTrainScaled YTrain
  { model := model,
    scaler := scaler,
    featureNames := featureNames,
    saved := [("model.pkl", .modelFile model), ("scaler.pkl", .scalerFile scaler)] }

/-! ### Concrete instantiations used to evaluate the handlers -/

/-- A concrete instantiation of the scikit-learn operations over trivial
model and scaler types, used to evaluate the handlers on concrete
requests: the scaler is the identity, the classifier always predicts
class 1 with probabilities `(3/10, 7/10)`. -/
def unitLib : PredictLib Unit Unit :=
  { scalerTransform := fun _ xs => xs,
    modelPredict := fun _ _ => 1,
    modelPredictProba := fun _ _ => (3/10, 7/10) }

/-- A served application state: all three globals assigned. -/
def readyState : AppState Unit Unit := ⟨some (), some (), some ["mean radius"]⟩

/-- A state in which `load_model` never assigned the `model` global. -/
def noModelState : AppState Unit Unit := ⟨none, some (), some ["mean radius"]⟩

/-- A request list of 30 numeric values. -/
def fs30 : List FeatureValue := List.replicate 30 (.num 1)

/-- The numeric vector carried by `fs30`. -/
def nums30 : List ℚ := List.replicate 30 1

/-- A request list of length 30 whose last entry is non-numeric. -/
def fsMixed : List FeatureValue :=
  List.replicate 29 (FeatureValue.num 1) ++ [.str "abc"]

/-! ### Rounding lemmas -/

theorem floor_le_pyRound (x : ℚ) : ⌊x⌋ ≤ pyRound x := by
  unfold pyRound
  split_ifs <;> omega

theorem pyRound_le_floor_add_one (x : ℚ) : pyRound x ≤ ⌊x⌋ + 1 := by
  unfold pyRound
  split_ifs <;> omega

theorem pyRound_mono : Monotone pyRound := by
  intro x y hxy
  have hf : ⌊x⌋ ≤ ⌊y⌋ := Int.floor_mono hxy
  rcases lt_or_eq_of_le hf with hlt | heq
  · calc pyRound x ≤ ⌊x⌋ + 1 := pyRound_le_floor_add_one x
      _ ≤ ⌊y⌋ := by omega
      _ ≤ pyRound y := floor_le_pyRound y
  · unfold pyRound
    rw [← heq]
    split_ifs <;> first | omega | (exfalso; linarith)

theorem round2_mono : Monotone round2 := by
  intro a b h
  unfold round2
  have h1 : pyRound (a * 100) ≤ pyRound (b * 100) := pyRound_mono (by linarith)
  have h2 : ((pyRound (a * 100) : ℚ)) ≤ (pyRound (b * 100) : ℚ) := by exact_mod_cast h1
  linarith

/-! ### Handler characterization lemmas -/

theorem predictEndpoint_valid {M S : Type} (lib : PredictLib M S)
    (st : AppState M S) (sc : S) (m : M)
    (fs : List FeatureValue) (nums : List ℚ)
    (hsc : st.scaler = some sc) (hm : st.model = some m)
    (hlen : fs.length = 30) (hnum : toNumeric fs = some nums) :
    predictEndpoint lib st (some ⟨some fs⟩) =
      (⟨.ok { prediction := ((lib.modelPredict m (lib.scalerTransform sc nums)).val : ℤ),
              label := if (lib.modelPredict m (lib.scalerTransform sc nums)).val = 1
                       then "Benign" else "Malignant",
              confidence := round2 (max (lib.modelPredictProba m (lib.scalerTransform sc nums)).1
                  (lib.modelPredictProba m (lib.scalerTransform sc nums)).2 * 100),
              probaMalignant :=
                round2 ((lib.modelPredictProba m (lib.scalerTransform sc nums)).1 * 100),
              probaBenign :=
                round2 ((lib.modelPredictProba m (lib.scalerTransform sc nums)).2 * 100) },
        true, true⟩, st) := by
  simp [predictEndpoint, hsc, hm, hlen, hnum]

theorem predictEndpoint_state {M S : Type} (lib : PredictLib M S)
    (st : AppState M S) (body : Option RequestBody) :
    (predictEndpoint lib st body).2 = st := by
  unfold predictEndpoint
  rcases body with _ | ⟨_ | fs⟩ <;>
    repeat first
      | rfl
      | split

theorem getFeaturesEndpoint_state {M S : Type} (st : AppState M S) :
    (getFeaturesEndpoint st).2 = st := by
  unfold getFeaturesEndpoint
  split <;> rfl

/-! ### Claim theorems -/

/-- C1: for every POST to `/api/predict` whose JSON body has a `features`
list of exactly 30 numeric values (served state: scaler and model
loaded), the handler returns HTTP 200 with a JSON object containing an
integer class `prediction` (0 or 1), a `label` of `"Malignant"` or
`"Benign"`, a numeric `confidence`, and a `probabilities` object with
`malignant` and `benign` entries (the typed fields of `PredictResult`). -/
theorem predict_valid_request_ok {M S : Type} (lib : PredictLib M S)
    (st : AppState M S) (sc : S) (m : M)
    (fs : List FeatureValue) (nums : List ℚ)
    (hsc : st.scaler = some sc) (hm : st.model = some m)
    (hlen : fs.length = 30) (hnum : toNumeric fs = some nums) :
    ∃ r : PredictResult,
      (predictEndpoint lib st (some ⟨some fs⟩)).1.response = .ok r ∧
      (r.prediction = 0 ∨ r.prediction = 1) ∧
      (r.label = "Malignant" ∨ r.label = "Benign") := by
  rw [predictEndpoint_valid lib st sc m fs nums hsc hm hlen hnum]
  refine ⟨_, rfl, ?_, ?_⟩
  · have h2 := (lib.modelPredict m (lib.scalerTransform sc nums)).isLt
    have h3 : (lib.modelPredict m (lib.scalerTransform sc nums)).val = 0 ∨
        (lib.modelPredict m (lib.scalerTransform sc nums)).val = 1 := by omega
    rcases h3 with h | h <;> simp [h]
  · by_cases h : (lib.modelPredict m (lib.scalerTransform sc nums)).val = 1 <;>
      simp [h]

/-- C1 witness: a concrete 30-element numeric request against a served
state gets a 200 response with the promised fields. -/
theorem predict_valid_request_ok_witness :
    ∃ r : PredictResult,
      (predictEndpoint unitLib readyState (some ⟨some fs30⟩)).1.response = .ok r ∧
      (r.prediction = 0 ∨ r.prediction = 1) ∧
      (r.label = "Malignant" ∨ r.label = "Benign") :=
  predict_valid_request_ok unitLib readyState () () fs30 nums30 rfl rfl rfl rfl

/-- C2: a POST to `/api/predict` with no body, with a body lacking the
`features` key, or with a `features` list whose length is not 30, gets
HTTP 400 with an error message, and neither `scaler.transform` nor the
classifier inference methods run. -/
theorem predict_invalid_rejected {M S : Type} (lib : PredictLib M S)
    (st : AppState M S) (body : Option RequestBody)
    (hbad : body = none ∨ body = some ⟨none⟩ ∨
      ∃ fs, body = some ⟨some fs⟩ ∧ fs.length ≠ 30) :
    ∃ msg : String,
      (predictEndpoint lib st body).1.response = .badRequest msg ∧
      (predictEndpoint lib st body).1.scalerInvoked = false ∧
      (predictEndpoint lib st body).1.modelInvoked = false := by
  rcases hbad with rfl | rfl | ⟨fs, rfl, hlen⟩
  · exact ⟨_, rfl, rfl, rfl⟩
  · exact ⟨_, rfl, rfl, rfl⟩
  · exact ⟨"Expected 30 features, got " ++ toString fs.length,
      by simp [predictEndpoint, hlen], by simp [predictEndpoint, hlen],
      by simp [predictEndpoint, hlen]⟩

/-- C2 witness: an empty `features` list gets a 400 and no library call. -/
theorem predict_invalid_rejected_witness :
    ∃ msg : String,
      (predictEndpoint unitLib readyState (some ⟨some []⟩)).1.response =
        .badRequest msg ∧
      (predictEndpoint unitLib readyState (some ⟨some []⟩)).1.scalerInvoked = false ∧
      (predictEndpoint unitLib readyState (some ⟨some []⟩)).1.modelInvoked = false :=
  predict_invalid_rejected unitLib readyState (some ⟨some []⟩)
    (Or.inr (Or.inr ⟨[], rfl, by decide⟩))

/-- C3 counterexample: a 30-element `features` list whose last entry is
non-numeric passes the handler's validation (which only checks the
length) and IS passed to `scaler.transform`, which raises; the response
is HTTP 500, not a validation rejection. -/
theorem predict_nonnumeric_not_validated_cex :
    (predictEndpoint unitLib readyState (some ⟨some fsMixed⟩)).1.scalerInvoked = true ∧
    (predictEndpoint unitLib readyState (some ⟨some fsMixed⟩)).1.response =
      .serverError "could not convert string to float" :=
  ⟨rfl, rfl⟩

/-- C3 amended: the handler does not validate that the feature values are
numeric; a length-30 list with a non-numeric entry is passed to
`scaler.transform`, whose exception is caught and returned as HTTP 500,
and the classifier is never invoked. -/
theorem predict_nonnumeric_500 {M S : Type} (lib : PredictLib M S)
    (st : AppState M S) (sc : S) (fs : List FeatureValue)
    (hsc : st.scaler = some sc) (hlen : fs.length = 30)
    (hnn : toNumeric fs = none) :
    (predictEndpoint lib st (some ⟨some fs⟩)).1.response =
      .serverError "could not convert string to float" ∧
    (predictEndpoint lib st (some ⟨some fs⟩)).1.scalerInvoked = true ∧
    (predictEndpoint lib st (some ⟨some fs⟩)).1.modelInvoked = false := by
  refine ⟨?_, ?_, ?_⟩ <;> simp [predictEndpoint, hsc, hlen, hnn]

/-- C3 amended witness: the concrete mixed list gets the 500 with the
conversion error, the scaler entered, the classifier not. -/
theorem predict_nonnumeric_500_witness :
    (predictEndpoint unitLib readyState (some ⟨some fsMixed⟩)).1.response =
      .serverError "could not convert string to float" ∧
    (predictEndpoint unitLib readyState (some ⟨some fsMixed⟩)).1.scalerInvoked = true ∧
    (predictEndpoint unitLib readyState (some ⟨some fsMixed⟩)).1.modelInvoked = false :=
  predict_nonnumeric_500 unitLib readyState () fsMixed rfl rfl rfl

/-- C4: for every valid prediction request, the returned class and
probabilities are exactly the classifier's outputs on the
scaler-transformed vector `lib.scalerTransform sc nums`, never on the raw
vector: the response is fully characterized in terms of the scaled
input. -/
theorem predict_uses_scaled_input {M S : Type} (lib : PredictLib M S)
    (st : AppState M S) (sc : S) (m : M)
    (fs : List FeatureValue) (nums : List ℚ)
    (hsc : st.scaler = some sc) (hm : st.model = some m)
    (hlen : fs.length = 30) (hnum : toNumeric fs = some nums) :
    (predictEndpoint lib st (some ⟨some fs⟩)).1.response =
      .ok { prediction := ((lib.modelPredict m (lib.scalerTransform sc nums)).val : ℤ),
            label := if (lib.modelPredict m (lib.scalerTransform sc nums)).val = 1
                     then "Benign" else "Malignant",
            confidence := round2 (max (lib.modelPredictProba m (lib.scalerTransform sc nums)).1
                (lib.modelPredictProba m (lib.scalerTransform sc nums)).2 * 100),
            probaMalignant :=
              round2 ((lib.modelPredictProba m (lib.scalerTransform sc nums)).1 * 100),
            probaBenign :=
              round2 ((lib.modelPredictProba m (lib.scalerTransform sc nums)).2 * 100) } := by
  rw [predictEndpoint_valid lib st sc m fs nums hsc hm hlen hnum]

/-- C4 witness: on the concrete request, the response equals the
classifier's output on the identity-scaled vector. -/
theorem predict_uses_scaled_input_witness :
    (predictEndpoint unitLib readyState (some ⟨some fs30⟩)).1.response =
      .ok { prediction := ((unitLib.modelPredict () (unitLib.scalerTransform () nums30)).val : ℤ),
            label := if (unitLib.modelPredict () (unitLib.scalerTransform () nums30)).val = 1
                     then "Benign" else "Malignant",
            confidence := round2 (max (unitLib.modelPredictProba () (unitLib.scalerTransform () nums30)).1
                (unitLib.modelPredictProba () (unitLib.scalerTransform () nums30)).2 * 100),
            probaMalignant :=
              round2 ((unitLib.modelPredictProba () (unitLib.scalerTransform () nums30)).1 * 100),
            probaBenign :=
              round2 ((unitLib.modelPredictProba () (unitLib.scalerTransform () nums30)).2 * 100) } :=
  predict_uses_scaled_input unitLib readyState () () fs30 nums30 rfl rfl rfl rfl

/-- C5: every request to the four endpoints leaves the global `model`,
`scaler` and `feature_names` state unchanged, and two identical requests
against the same state produce the same response. -/
theorem endpoints_stateless {M S : Type} (lib : PredictLib M S)
    (st : AppState M S) (body : Option RequestBody) :
    (predictEndpoint lib st body).2 = st ∧
    (getFeaturesEndpoint st).2 = st ∧
    (modelInfoEndpoint st).2 = st ∧
    (healthEndpoint st).2 = st ∧
    (predictEndpoint lib st body).1 = (predictEndpoint lib st body).1 ∧
    (getFeaturesEndpoint st).1 = (getFeaturesEndpoint st).1 ∧
    (modelInfoEndpoint (M := M) (S := S) st).1 = (modelInfoEndpoint st).1 ∧
    (healthEndpoint st).1 = (healthEndpoint st).1 :=
  ⟨predictEndpoint_state lib st body, getFeaturesEndpoint_state st,
    rfl, rfl, rfl, rfl, rfl, rfl⟩

/-- C6: `load_model` loads the fixed dataset, splits it into training and
test portions, fits the scaler on the training portion, fits the linear
classifier on the scaled training data, and persists both the classifier
(`model.pkl`) and the scaler (`scaler.pkl`). -/
theorem load_model_trains_and_persists {M S : Type} (lib : TrainLib M S) :
    (load_model lib).scaler =
      lib.scalerFit (lib.split lib.datasetData lib.datasetTarget).1 ∧
    (load_model lib).model =
      lib.modelFit
        (lib.scalerTransform (lib.scalerFit (lib.split lib.datasetData lib.datasetTarget).1)
          (lib.split lib.datasetData lib.datasetTarget).1)
        (lib.split lib.datasetData lib.datasetTarget).2.2.1 ∧
    (load_model lib).featureNames = lib.datasetFeatureNames ∧
    (load_model lib).saved =
      [("model.pkl", .modelFile (load_model lib).model),
       ("scaler.pkl", .scalerFile (load_model lib).scaler)] :=
  ⟨rfl, rfl, rfl, rfl⟩

/-- C7: for every valid prediction request, the returned label is
`"Benign"` exactly when the predicted class is 1 and `"Malignant"`
exactly when it is 0, matching the class listing of `/api/model-info`. -/
theorem predict_label_matches_class {M S : Type} (lib : PredictLib M S)
    (st : AppState M S) (sc : S) (m : M)
    (fs : List FeatureValue) (nums : List ℚ)
    (hsc : st.scaler = some sc) (hm : st.model = some m)
    (hlen : fs.length = 30) (hnum : toNumeric fs = some nums) :
    ∃ r : PredictResult,
      (predictEndpoint lib st (some ⟨some fs⟩)).1.response = .ok r ∧
      (r.label = "Benign" ↔ r.prediction = 1) ∧
      (r.label = "Malignant" ↔ r.prediction = 0) ∧
      (modelInfoEndpoint st).1.classes = ["Malignant (0)", "Benign (1)"] := by
  rw [predictEndpoint_valid lib st sc m fs nums hsc hm hlen hnum]
  refine ⟨_, rfl, ?_, ?_, rfl⟩ <;>
  · have h2 := (lib.modelPredict m (lib.scalerTransform sc nums)).isLt
    have h3 : (lib.modelPredict m (lib.scalerTransform sc nums)).val = 0 ∨
        (lib.modelPredict m (lib.scalerTransform sc nums)).val = 1 := by omega
    rcases h3 with h | h <;> simp [h]

/-- C7 witness: the concrete request's label and class agree with the
class listing. -/
theorem predict_label_matches_class_witness :
    ∃ r : PredictResult,
      (predictEndpoint unitLib readyState (some ⟨some fs30⟩)).1.response = .ok r ∧
      (r.label = "Benign" ↔ r.prediction = 1) ∧
      (r.label = "Malignant" ↔ r.prediction = 0) ∧
      (modelInfoEndpoint readyState).1.classes = ["Malignant (0)", "Benign (1)"] :=
  predict_label_matches_class unitLib readyState () () fs30 nums30 rfl rfl rfl rfl

/-- C8: for every valid prediction request, the returned confidence is
the rounding of 100 times the larger class probability, and equals the
maximum of the reported `malignant` and `benign` percentage entries. -/
theorem predict_confidence_is_max {M S : Type} (lib : PredictLib M S)
    (st : AppState M S) (sc : S) (m : M)
    (fs : List FeatureValue) (nums : List ℚ)
    (hsc : st.scaler = some sc) (hm : st.model = some m)
    (hlen : fs.length = 30) (hnum : toNumeric fs = some nums) :
    ∃ r : PredictResult,
      (predictEndpoint lib st (some ⟨some fs⟩)).1.response = .ok r ∧
      r.confidence = round2 (max (lib.modelPredictProba m (lib.scalerTransform sc nums)).1
        (lib.modelPredictProba m (lib.scalerTransform sc nums)).2 * 100) ∧
      r.confidence = max r.probaMalignant r.probaBenign := by
  rw [predictEndpoint_valid lib st sc m fs nums hsc hm hlen hnum]
  refine ⟨_, rfl, rfl, ?_⟩
  show round2 (max (lib.modelPredictProba m (lib.scalerTransform sc nums)).1
      (lib.modelPredictProba m (lib.scalerTransform sc nums)).2 * 100) = _
  rw [max_mul_of_nonneg _ _ (by norm_num : (0:ℚ) ≤ 100), round2_mono.map_max]

/-- C8 witness: on the concrete request, the confidence equals the larger
reported percentage. -/
theorem predict_confidence_is_max_witness :
    ∃ r : PredictResult,
      (predictEndpoint unitLib readyState (some ⟨some fs30⟩)).1.response = .ok r ∧
      r.confidence = round2 (max (unitLib.modelPredictProba () (unitLib.scalerTransform () nums30)).1
        (unitLib.modelPredictProba () (unitLib.scalerTransform () nums30)).2 * 100) ∧
      r.confidence = max r.probaMalignant r.probaBenign :=
  predict_confidence_is_max unitLib readyState () () fs30 nums30 rfl rfl rfl rfl

/-- C9: for every GET to `/api/features` in a state where `feature_names`
is assigned, the returned `count` equals the length of the returned
`features` list. -/
theorem features_count_matches {M S : Type} (st : AppState M S)
    (fns : List String) (h : st.featureNames = some fns) :
    ∃ fs : List String, ∃ c : ℕ,
      (getFeaturesEndpoint st).1 = .ok fs c ∧ c = fs.length := by
  refine ⟨fns, fns.length, ?_, rfl⟩
  simp [getFeaturesEndpoint, h]

/-- C9 witness: the concrete served state returns its one feature name
with count 1. -/
theorem features_count_matches_witness :
    ∃ fs : List String, ∃ c : ℕ,
      (getFeaturesEndpoint readyState).1 = .ok fs c ∧ c = fs.length :=
  features_count_matches readyState ["mean radius"] rfl

/-- C10: for every POST to `/api/predict` that passes validation but
fails in a later step (non-numeric values reaching the scaler, or an
unassigned scaler or model global), the handler returns HTTP 500 with an
error message and the global state is unchanged. -/
theorem predict_post_validation_error_500 {M S : Type} (lib : PredictLib M S)
    (st : AppState M S) (fs : List FeatureValue)
    (hlen : fs.length = 30)
    (hfail : toNumeric fs = none ∨ st.scaler = none ∨ st.model = none) :
    ∃ msg : String,
      (predictEndpoint lib st (some ⟨some fs⟩)).1.response = .serverError msg ∧
      (predictEndpoint lib st (some ⟨some fs⟩)).2 = st := by
  rcases hsc : st.scaler with _ | sc
  · exact ⟨"NoneType object has no attribute transform",
      by simp [predictEndpoint, hlen, hsc], predictEndpoint_state ..⟩
  · rcases hnn : toNumeric fs with _ | nums
    · exact ⟨"could not convert string to float",
        by simp [predictEndpoint, hlen, hsc, hnn], predictEndpoint_state ..⟩
    · rcases hfail with h | h | h
      · rw [h] at hnn; cases hnn
      · rw [h] at hsc; cases hsc
      · exact ⟨"NoneType object has no attribute predict",
          by simp [predictEndpoint, hlen, hsc, hnn, h], predictEndpoint_state ..⟩

/-- C10 witness: a numeric request against a state whose model was never
assigned gets a 500 and the state is unchanged. -/
theorem predict_post_validation_error_500_witness :
    ∃ msg : String,
      (predictEndpoint unitLib noModelState (some ⟨some fs30⟩)).1.response =
        .serverError msg ∧
      (predictEndpoint unitLib noModelState (some ⟨some fs30⟩)).2 = noModelState :=
  predict_post_validation_error_500 unitLib noModelState fs30 rfl
    (Or.inr (Or.inr rfl))

end BreastCancer
